import Mathlib

/-!
# Verification of the simple_bank backend against its specification

Part 1 embeds the money-transfer transaction engine described in the
specification (sections 2-7).  The engine's own source is not part of the
sources provided (only its HTTP-layer test is), so every definition in
this part is modelled from the specification's words, as its doc comment
records.

Part 2 embeds, directly from the Go sources, the `createUser` HTTP
handler (`api/user.go`) and the `UpdateUser` gRPC handler
(`gapi/rpc_update_user.go`).
-/

namespace SimpleBank

/-- Modelled from the spec: an Account row (section 3) — unique ID, owner,
signed integer balance in the smallest currency unit, currency code.
Creation timestamps are irrelevant to every claim and are omitted. -/
structure Account where
  id : Int
  owner : String
  balance : Int
  currency : String
deriving DecidableEq, Repr

/-- Modelled from the spec: an Entry row (section 3) — an immutable ledger
line with an owning account ID and a signed amount. -/
structure Entry where
  id : Int
  accountID : Int
  amount : Int
deriving DecidableEq, Repr

/-- Modelled from the spec: a Transfer row (section 3) — an immutable
record of one movement from a source to a destination account. -/
structure Transfer where
  id : Int
  fromAccountID : Int
  toAccountID : Int
  amount : Int
deriving DecidableEq, Repr

/-- Modelled from the spec: the Ledger Repository's storage (section 6) —
three tables: accounts (keyed by id), entries and transfers (append-only,
section 3 "the ledger is append-only"). -/
structure DB where
  accounts : Int → Option Account
  entries : List Entry
  transfers : List Transfer

/-- Modelled from the spec: the error taxonomy of section 7, plus the
injected failure of the section 8 fault-injection property. -/
inductive TxErr where
  | notFound
  | sameAccount
  | injected
deriving DecidableEq, Repr

/-- Modelled from the spec: the input to `TransferTx` (section 4.3). -/
structure TransferTxParams where
  fromAccountID : Int
  toAccountID : Int
  amount : Int
deriving DecidableEq, Repr

/-- Modelled from the spec: the five-tuple result of `TransferTx`
(section 4.3). -/
structure TransferTxResult where
  transfer : Transfer
  fromEntry : Entry
  toEntry : Entry
  fromAccount : Account
  toAccount : Account
deriving DecidableEq, Repr

/-- Modelled from the spec: the Lock Ordering Policy (section 4.2) —
`OrderForAccess(idA, idB) -> (first, second)`, a total deterministic
ordering by ascending numeric identifier. -/
def orderForAccess (idA idB : Int) : Int × Int :=
  if idA < idB then (idA, idB) else (idB, idA)

/-- Modelled from the spec: `LockAccountForUpdate(id) -> account`
(section 4.4) — reads the row under an exclusive lock; `NotFound` when the
id has no row (section 7). Locking itself has no effect on the state in a
serial model, so this is the row read. -/
def lockAccountForUpdate (db : DB) (id : Int) : Except TxErr Account :=
  match db.accounts id with
  | none => .error .notFound
  | some a => .ok a

/-- Modelled from the spec: `AddBalance(id, delta) -> updatedAccount`
(section 4.4) — atomic read-modify-write of the balance by a signed delta
under the already-held lock; never writes an absolute value (section 3). -/
def addAccountBalance (db : DB) (id : Int) (delta : Int) :
    Except TxErr (DB × Account) :=
  match db.accounts id with
  | none => .error .notFound
  | some acc =>
    let acc' : Account := { acc with balance := acc.balance + delta }
    .ok ({ db with accounts := fun j => if j = id then some acc' else db.accounts j },
         acc')

/-- Modelled from the spec: `InsertTransfer(...)` (section 4.4) — appends
an immutable Transfer row; ids are assigned sequentially. -/
def createTransfer (db : DB) (p : TransferTxParams) : DB × Transfer :=
  let tr : Transfer :=
    { id := (db.transfers.length : Int) + 1
      fromAccountID := p.fromAccountID
      toAccountID := p.toAccountID
      amount := p.amount }
  ({ db with transfers := db.transfers ++ [tr] }, tr)

/-- Modelled from the spec: `InsertEntry(...)` (section 4.4) — appends an
immutable Entry row; ids are assigned sequentially. -/
def createEntry (db : DB) (accountID : Int) (amount : Int) : DB × Entry :=
  let e : Entry :=
    { id := (db.entries.length : Int) + 1
      accountID := accountID
      amount := amount }
  ({ db with entries := db.entries ++ [e] }, e)

/-- Modelled from the spec: the points of the section 4.3 algorithm at
which the section 8 fault-injection property may inject a failure
("a failure injected after entry creation but before balance update"). -/
inductive TxStep where
  | createTransferStep
  | fromEntryStep
  | toEntryStep
  | firstBalanceStep
  | secondBalanceStep
deriving DecidableEq, Repr

/-- Modelled from the spec: injects a failure when the unit of work
reaches step `s` and the fault model names `s`. -/
def checkFault (fault : Option TxStep) (s : TxStep) : Except TxErr Unit :=
  if fault = some s then .error .injected else .ok ()

/-- Modelled from the spec: the Transfer Orchestrator's unit of work
(section 4.3): reject `fromID == toID`; acquire row locks in the order
given by the Lock Ordering Policy; create the Transfer record; create the
debit entry (`-amount`) and the credit entry (`+amount`); apply the
balance deltas through the locked rows in the same access order; assemble
the five-tuple. -/
def transferTxBody (fault : Option TxStep) (p : TransferTxParams) (db0 : DB) :
    Except TxErr (DB × TransferTxResult) :=
  if p.fromAccountID = p.toAccountID then .error .sameAccount else do
    let ord := orderForAccess p.fromAccountID p.toAccountID
    let _ ← lockAccountForUpdate db0 ord.1
    let _ ← lockAccountForUpdate db0 ord.2
    let _ ← checkFault fault .createTransferStep
    let (db1, transfer) := createTransfer db0 p
    let _ ← checkFault fault .fromEntryStep
    let (db2, fromEntry) := createEntry db1 p.fromAccountID (-p.amount)
    let _ ← checkFault fault .toEntryStep
    let (db3, toEntry) := createEntry db2 p.toAccountID p.amount
    let _ ← checkFault fault .firstBalanceStep
    if p.fromAccountID < p.toAccountID then do
      let (db4, fromAccount) ← addAccountBalance db3 p.fromAccountID (-p.amount)
      let _ ← checkFault fault .secondBalanceStep
      let (db5, toAccount) ← addAccountBalance db4 p.toAccountID p.amount
      .ok (db5, ⟨transfer, fromEntry, toEntry, fromAccount, toAccount⟩)
    else do
      let (db4, toAccount) ← addAccountBalance db3 p.toAccountID p.amount
      let _ ← checkFault fault .secondBalanceStep
      let (db5, fromAccount) ← addAccountBalance db4 p.fromAccountID (-p.amount)
      .ok (db5, ⟨transfer, fromEntry, toEntry, fromAccount, toAccount⟩)

/-- Modelled from the spec: the Atomic Scope Runner (section 4.1) —
begins a transaction, runs the unit of work, commits its state on
success, rolls the state back to the pre-transaction snapshot on any
failure. The pair returned is (post-scope state, outcome); by
construction a result is never produced alongside an error. -/
def execTx {α : Type} (db : DB) (fn : DB → Except TxErr (DB × α)) :
    DB × Except TxErr α :=
  match fn db with
  | .ok (db', r) => (db', .ok r)
  | .error e => (db, .error e)

/-- Modelled from the spec: `TransferTx` (section 4.3) — the orchestrator
run entirely inside one Atomic Scope Runner invocation. The `fault`
argument is the section 8 fault-injection model (`none` = no injected
failure). -/
def TransferTx (fault : Option TxStep) (p : TransferTxParams) (db : DB) :
    DB × Except TxErr TransferTxResult :=
  execTx db (transferTxBody fault p)

/-- Modelled from the spec: the first and second entry of a successful
result, for stating the two-entries invariant without an existential. -/
def resultEntryPair (x : DB × Except TxErr TransferTxResult) :
    Option (Entry × Entry) :=
  x.2.toOption.map fun r => (r.fromEntry, r.toEntry)

/-- Modelled from the spec: one direction of a transfer between the fixed
account pair of the section 5 / section 8 concurrency scenario. -/
inductive Dir where
  | ab
  | ba
deriving DecidableEq, Repr

/-- Modelled from the spec: one of the N transfers of the concurrency
scenario — a direction and an amount. -/
structure Xfer where
  dir : Dir
  amount : Int
deriving DecidableEq, Repr

/-- Modelled from the spec: the `TransferTx` parameters of one scenario
transfer between accounts `a` and `b`. -/
def xferParams (a b : Int) (t : Xfer) : TransferTxParams :=
  match t.dir with
  | .ab => ⟨a, b, t.amount⟩
  | .ba => ⟨b, a, t.amount⟩

/-- Modelled from the spec: a serializable interleaving of the scenario's
transfers — row locks serialize the atomic scopes, so an execution is a
sequential settlement order of the N transfers. -/
def applyTransfers (a b : Int) (db : DB) : List Xfer → DB
  | [] => db
  | t :: ts => applyTransfers a b (TransferTx none (xferParams a b t) db).1 ts

/-- Modelled from the spec: the signed contribution of one scenario
transfer to the balance of account `a`. -/
def netToA (t : Xfer) : Int :=
  match t.dir with
  | .ab => -t.amount
  | .ba => t.amount

/-- Modelled from the spec: the algebraic sum of all transfer amounts, as
seen by account `a`. -/
def netSumA (ts : List Xfer) : Int :=
  (ts.map netToA).sum

/-- Modelled from the spec: a two-party lock-wait cycle (section 5) —
each transaction holds the first lock of its access order and waits for
its second, which the other holds as its first. -/
def twoPartyWaitCycle (o1 o2 : Int × Int) : Prop :=
  o1.2 = o2.1 ∧ o2.2 = o1.1

/-- Helper: the Lock Ordering Policy yields the same pair whichever way
the two distinct identifiers are presented. -/
theorem orderForAccess_swap (a b : Int) (h : a ≠ b) :
    orderForAccess a b = orderForAccess b a := by
  unfold orderForAccess
  rcases lt_trichotomy a b with hlt | heq | hgt
  · simp [hlt, not_lt.mpr hlt.le]
  · exact absurd heq h
  · simp [hgt, not_lt.mpr hgt.le]

/-- Helper: the first component of the access order is strictly below the
second for distinct identifiers. -/
theorem orderForAccess_strict (a b : Int) (h : a ≠ b) :
    (orderForAccess a b).1 < (orderForAccess a b).2 := by
  unfold orderForAccess
  rcases lt_trichotomy a b with hlt | heq | hgt
  · simp [hlt]
  · exact absurd heq h
  · simp [hgt, not_lt.mpr hgt.le]

/-- Helper: full characterisation of a successful `TransferTx` (no
injected fault, distinct accounts, both rows present): the post-state
account map, the two appended entries, the appended transfer row, and the
returned five-tuple. -/
theorem transferTx_spec (db : DB) (p : TransferTxParams) (accF accT : Account)
    (hne : p.fromAccountID ≠ p.toAccountID)
    (hF : db.accounts p.fromAccountID = some accF)
    (hT : db.accounts p.toAccountID = some accT) :
    (∀ i, (TransferTx none p db).1.accounts i =
      if i = p.fromAccountID then some { accF with balance := accF.balance - p.amount }
      else if i = p.toAccountID then some { accT with balance := accT.balance + p.amount }
      else db.accounts i) ∧
    (TransferTx none p db).1.entries = db.entries ++
      [{ id := (db.entries.length : Int) + 1, accountID := p.fromAccountID, amount := -p.amount },
       { id := (db.entries.length : Int) + 2, accountID := p.toAccountID, amount := p.amount }] ∧
    (TransferTx none p db).1.transfers = db.transfers ++
      [{ id := (db.transfers.length : Int) + 1, fromAccountID := p.fromAccountID,
         toAccountID := p.toAccountID, amount := p.amount }] ∧
    (TransferTx none p db).2 = .ok
      { transfer := { id := (db.transfers.length : Int) + 1, fromAccountID := p.fromAccountID,
                      toAccountID := p.toAccountID, amount := p.amount }
        fromEntry := { id := (db.entries.length : Int) + 1, accountID := p.fromAccountID,
                       amount := -p.amount }
        toEntry := { id := (db.entries.length : Int) + 2, accountID := p.toAccountID,
                     amount := p.amount }
        fromAccount := { accF with balance := accF.balance - p.amount }
        toAccount := { accT with balance := accT.balance + p.amount } } := by
  by_cases hlt : p.fromAccountID < p.toAccountID
  · simp only [TransferTx, execTx, transferTxBody, lockAccountForUpdate, addAccountBalance,
      checkFault, createTransfer, createEntry, orderForAccess, if_neg hne, if_pos hlt,
      hF, hT, Bind.bind, Except.bind]
    simp only [if_neg (Ne.symm hne), hT]
    simp only [show (none = some TxStep.createTransferStep) = False by simp,
      show (none = some TxStep.fromEntryStep) = False by simp,
      show (none = some TxStep.toEntryStep) = False by simp,
      show (none = some TxStep.firstBalanceStep) = False by simp,
      show (none = some TxStep.secondBalanceStep) = False by simp, if_false]
    refine ⟨fun i => ?_, ?_, ?_, ?_⟩
    · by_cases hif : i = p.fromAccountID
      · simp [hif, hne, sub_eq_add_neg]
      · by_cases hit : i = p.toAccountID <;> simp [hif, hit, Ne.symm hne]
    · simp only [List.append_assoc, List.length_append, List.length_cons, List.length_nil]
      push_cast
      norm_num
      omega
    · trivial
    · simp [sub_eq_add_neg]
      omega
  · simp only [TransferTx, execTx, transferTxBody, lockAccountForUpdate, addAccountBalance,
      checkFault, createTransfer, createEntry, orderForAccess, if_neg hne, if_neg hlt,
      hF, hT, Bind.bind, Except.bind]
    simp only [show (none = some TxStep.createTransferStep) = False by simp,
      show (none = some TxStep.fromEntryStep) = False by simp,
      show (none = some TxStep.toEntryStep) = False by simp,
      show (none = some TxStep.firstBalanceStep) = False by simp,
      show (none = some TxStep.secondBalanceStep) = False by simp, if_false]
    refine ⟨fun i => ?_, ?_, ?_, ?_⟩
    · by_cases hif : i = p.fromAccountID
      · simp [hif, hne, sub_eq_add_neg]
      · by_cases hit : i = p.toAccountID <;> simp [hif, hit, Ne.symm hne]
    · simp only [List.append_assoc, List.length_append, List.length_cons, List.length_nil]
      push_cast
      norm_num
      omega
    · trivial
    · simp [sub_eq_add_neg]
      omega

/-- Helper: whatever the unit of work, the Atomic Scope Runner hands back
the pre-transaction state whenever the outcome is an error. -/
theorem execTx_error_state {α : Type} (db : DB) (fn : DB → Except TxErr (DB × α))
    (e : TxErr) (h : (execTx db fn).2 = .error e) :
    (execTx db fn).1 = db := by
  unfold execTx at h ⊢
  cases hfn : fn db with
  | ok v => rw [hfn] at h; simp at h
  | error e' => rfl

/-- Helper: `netSumA` of a cons. -/
theorem netSumA_cons (t : Xfer) (ts : List Xfer) :
    netSumA (t :: ts) = netToA t + netSumA ts := by
  simp [netSumA]

/-- Helper: settling the scenario's transfers in any given order shifts
the two balances by the algebraic net sum of the list. -/
theorem applyTransfers_balances (a b : Int) (hab : a ≠ b) (ts : List Xfer) :
    ∀ (db : DB) (accA accB : Account),
      db.accounts a = some accA → db.accounts b = some accB →
      ((applyTransfers a b db ts).accounts a).map Account.balance
          = some (accA.balance + netSumA ts) ∧
      ((applyTransfers a b db ts).accounts b).map Account.balance
          = some (accB.balance - netSumA ts) := by
  induction ts with
  | nil =>
    intro db accA accB hA hB
    simp [applyTransfers, netSumA, hA, hB]
  | cons t ts ih =>
    intro db accA accB hA hB
    have hstep : applyTransfers a b db (t :: ts) =
        applyTransfers a b (TransferTx none (xferParams a b t) db).1 ts := rfl
    cases hd : t.dir
    case ab =>
      have hp : xferParams a b t = ⟨a, b, t.amount⟩ := by simp [xferParams, hd]
      obtain ⟨hacc, -, -, -⟩ := transferTx_spec db ⟨a, b, t.amount⟩ accA accB hab hA hB
      have hA' : (TransferTx none (xferParams a b t) db).1.accounts a
          = some { accA with balance := accA.balance - t.amount } := by
        rw [hp, hacc a]; simp
      have hB' : (TransferTx none (xferParams a b t) db).1.accounts b
          = some { accB with balance := accB.balance + t.amount } := by
        rw [hp, hacc b]; simp [Ne.symm hab]
      obtain ⟨ih1, ih2⟩ := ih _ _ _ hA' hB'
      rw [hstep]
      constructor
      · rw [ih1]; congr 1; rw [netSumA_cons]; simp [netToA, hd]; ring
      · rw [ih2]; congr 1; rw [netSumA_cons]; simp [netToA, hd]; ring
    case ba =>
      have hp : xferParams a b t = ⟨b, a, t.amount⟩ := by simp [xferParams, hd]
      obtain ⟨hacc, -, -, -⟩ := transferTx_spec db ⟨b, a, t.amount⟩ accB accA (Ne.symm hab) hB hA
      have hA' : (TransferTx none (xferParams a b t) db).1.accounts a
          = some { accA with balance := accA.balance + t.amount } := by
        rw [hp, hacc a]; simp [hab]
      have hB' : (TransferTx none (xferParams a b t) db).1.accounts b
          = some { accB with balance := accB.balance - t.amount } := by
        rw [hp, hacc b]; simp
      obtain ⟨ih1, ih2⟩ := ih _ _ _ hA' hB'
      rw [hstep]
      constructor
      · rw [ih1]; congr 1; rw [netSumA_cons]; simp [netToA, hd]; ring
      · rw [ih2]; congr 1; rw [netSumA_cons]; simp [netToA, hd]; ring

/-- Helper: a permutation of the settlement order leaves the net sum
unchanged. -/
theorem netSumA_perm (ts ts' : List Xfer) (h : ts.Perm ts') :
    netSumA ts = netSumA ts' := by
  unfold netSumA
  exact List.Perm.sum_eq (h.map netToA)

/-- Modelled from the spec: the validated transfer request arriving at
the caller of the core (section 6) — `(fromAccountID, toAccountID,
amount, currency)`. -/
structure TransferRequest where
  fromAccountID : Int
  toAccountID : Int
  amount : Int
  currency : String
deriving DecidableEq, Repr

/-- Modelled from the spec: the response classes of the transfer API
caller (section 7 user-visible behavior and the `TestTransferAPI`
expectations). -/
inductive HandlerStatus where
  | ok200
  | badRequest400
  | notFound404
  | internalError500
deriving DecidableEq, Repr

/-- Modelled from the spec: what the transfer API caller did — the
post-request ledger, the response class, and whether `TransferTx` was
invoked. -/
structure HandlerOutcome where
  db : DB
  status : HandlerStatus
  txInvoked : Bool

/-- Modelled from the spec: the caller's per-account check (section 6):
fetch the account; a missing row is a missing-resource response, a stored
currency differing from the request currency is a bad-request response
(`TestTransferAPI` "Currency Mismatched" cases). -/
def validAccount (db : DB) (id : Int) (currency : String) :
    Except HandlerStatus Account :=
  match db.accounts id with
  | none => .error .notFound404
  | some acc => if acc.currency = currency then .ok acc else .error .badRequest400

/-- Modelled from the spec: the transfer API caller (not under the
provided sources; its test `TestTransferAPI` is): validates both accounts
against the request currency and only then invokes `TransferTx`. -/
def createTransferHandler (db : DB) (req : TransferRequest) : HandlerOutcome :=
  match validAccount db req.fromAccountID req.currency with
  | .error s => ⟨db, s, false⟩
  | .ok _ =>
    match validAccount db req.toAccountID req.currency with
    | .error s => ⟨db, s, false⟩
    | .ok _ =>
      match TransferTx none ⟨req.fromAccountID, req.toAccountID, req.amount⟩ db with
      | (db', .ok _) => ⟨db', .ok200, true⟩
      | (db', .error _) => ⟨db', .internalError500, true⟩

/-- Sample ledger used by the witnesses: account 1 (alice, 100 USD) and
account 2 (bob, 50 USD), empty entry and transfer tables — the section 8
scenario. -/
def aliceAccount : Account := ⟨1, "alice", 100, "USD"⟩

/-- Sample account 2 of the witness ledger. -/
def bobAccount : Account := ⟨2, "bob", 50, "USD"⟩

/-- Sample ledger holding the two witness accounts. -/
def sampleDB : DB :=
  ⟨fun i => if i = 1 then some aliceAccount else if i = 2 then some bobAccount else none,
   [], []⟩

/-- C1: a successful `TransferTx` of amount `a` from account X (balance
`bx`) to a distinct account Y (balance `by`, same currency) leaves
`balance(X) = bx - a` and `balance(Y) = by + a` — the deltas subtract `a`
from the source and add `a` to the destination. -/
theorem transferTx_balance_deltas (db : DB) (p : TransferTxParams)
    (accF accT : Account)
    (hne : p.fromAccountID ≠ p.toAccountID)
    (hcur : accF.currency = accT.currency)
    (hF : db.accounts p.fromAccountID = some accF)
    (hT : db.accounts p.toAccountID = some accT) :
    ((TransferTx none p db).1.accounts p.fromAccountID).map Account.balance
        = some (accF.balance - p.amount) ∧
    ((TransferTx none p db).1.accounts p.toAccountID).map Account.balance
        = some (accT.balance + p.amount) ∧
    (TransferTx none p db).2.isOk = true := by
  obtain ⟨hacc, -, -, hres⟩ := transferTx_spec db p accF accT hne hF hT
  refine ⟨?_, ?_, ?_⟩
  · rw [hacc]; simp
  · rw [hacc]; simp [Ne.symm hne]
  · rw [hres]; rfl

/-- Witness for C1: the section 8 scenario — `TransferTx(1, 2, 10)` on
balances 100 and 50 succeeds with post-balances 90 and 60. -/
theorem transferTx_balance_deltas_witness :
    ((1 : Int) ≠ 2) ∧ aliceAccount.currency = bobAccount.currency ∧
    sampleDB.accounts 1 = some aliceAccount ∧
    sampleDB.accounts 2 = some bobAccount ∧
    ((TransferTx none ⟨1, 2, 10⟩ sampleDB).1.accounts 1).map Account.balance
        = some (aliceAccount.balance - 10) ∧
    ((TransferTx none ⟨1, 2, 10⟩ sampleDB).1.accounts 2).map Account.balance
        = some (bobAccount.balance + 10) ∧
    (TransferTx none ⟨1, 2, 10⟩ sampleDB).2.isOk = true := by
  refine ⟨by decide, by decide, by decide, by decide, ?_⟩
  exact transferTx_balance_deltas sampleDB ⟨1, 2, 10⟩ aliceAccount bobAccount
    (by decide) (by decide) (by decide) (by decide)

/-- C2: any failure inside the atomic scope — at whichever step the
fault model injects it, or from the scope's own checks — rolls the state
back before surfacing: the post-scope ledger is exactly the pre-scope
ledger (no transfer row, no entry row, no balance change), and by the
shape of `execTx` no result is ever produced alongside an error. -/
theorem transferTx_error_rolls_back (fault : Option TxStep)
    (p : TransferTxParams) (db : DB) (e : TxErr)
    (h : (TransferTx fault p db).2 = .error e) :
    (TransferTx fault p db).1 = db ∧
    (TransferTx fault p db).1.entries = db.entries ∧
    (TransferTx fault p db).1.transfers = db.transfers ∧
    ∀ i, (TransferTx fault p db).1.accounts i = db.accounts i := by
  have hdb : (TransferTx fault p db).1 = db := execTx_error_state db _ e h
  exact ⟨hdb, by rw [hdb], by rw [hdb], fun i => by rw [hdb]⟩

/-- Witness for C2: a failure injected after entry creation but before
the balance update (the section 8 fault-injection test) rolls back — the
ledger is unchanged. -/
theorem transferTx_error_rolls_back_witness :
    (TransferTx (some .firstBalanceStep) ⟨1, 2, 10⟩ sampleDB).2
        = .error .injected ∧
    (TransferTx (some .firstBalanceStep) ⟨1, 2, 10⟩ sampleDB).1 = sampleDB ∧
    (TransferTx (some .firstBalanceStep) ⟨1, 2, 10⟩ sampleDB).1.entries
        = sampleDB.entries ∧
    (TransferTx (some .firstBalanceStep) ⟨1, 2, 10⟩ sampleDB).1.transfers
        = sampleDB.transfers :=
  have h := transferTx_error_rolls_back (some .firstBalanceStep) ⟨1, 2, 10⟩
    sampleDB .injected rfl
  ⟨rfl, h.1, h.2.1, h.2.2.1⟩

/-- C3: a completed transfer of amount `a` appends exactly two entries,
one per participating account, whose amounts are `-a` (debit on the
source) and `+a` (credit on the destination) and whose sum is zero; the
result's entry pair carries the same accounts and amounts. -/
theorem transferTx_entries_pair (db : DB) (p : TransferTxParams)
    (accF accT : Account)
    (hne : p.fromAccountID ≠ p.toAccountID)
    (hF : db.accounts p.fromAccountID = some accF)
    (hT : db.accounts p.toAccountID = some accT) :
    (TransferTx none p db).1.entries = db.entries ++
      [{ id := (db.entries.length : Int) + 1, accountID := p.fromAccountID,
         amount := -p.amount },
       { id := (db.entries.length : Int) + 2, accountID := p.toAccountID,
         amount := p.amount }] ∧
    (resultEntryPair (TransferTx none p db)).map
        (fun q => (q.1.accountID, q.1.amount, q.2.accountID, q.2.amount))
      = some (p.fromAccountID, -p.amount, p.toAccountID, p.amount) ∧
    (-p.amount) + p.amount = 0 := by
  obtain ⟨-, hent, -, hres⟩ := transferTx_spec db p accF accT hne hF hT
  refine ⟨hent, ?_, by ring⟩
  rw [resultEntryPair, hres]
  rfl

/-- Witness for C3: the section 8 scenario transfer appends exactly the
entries `{1:-10}` and `{2:+10}`. -/
theorem transferTx_entries_pair_witness :
    ((1 : Int) ≠ 2) ∧
    (TransferTx none ⟨1, 2, 10⟩ sampleDB).1.entries = sampleDB.entries ++
      [{ id := (sampleDB.entries.length : Int) + 1, accountID := 1, amount := -10 },
       { id := (sampleDB.entries.length : Int) + 2, accountID := 2, amount := 10 }] ∧
    (resultEntryPair (TransferTx none ⟨1, 2, 10⟩ sampleDB)).map
        (fun q => (q.1.accountID, q.1.amount, q.2.accountID, q.2.amount))
      = some (1, -10, 2, 10) ∧
    (-(10 : Int)) + 10 = 0 :=
  ⟨by decide,
   transferTx_entries_pair sampleDB ⟨1, 2, 10⟩ aliceAccount bobAccount
     (by decide) (by decide) (by decide)⟩

/-- C4: `OrderForAccess` is a pure total Lean function of the two
identifiers (purity and determinism by construction), and for distinct
identifiers it yields the same (first, second) sequence whichever way the
pair is presented, the first strictly below the second. -/
theorem orderForAccess_symmetric (a b : Int) (h : a ≠ b) :
    orderForAccess a b = orderForAccess b a ∧
    (orderForAccess a b).1 < (orderForAccess a b).2 :=
  ⟨orderForAccess_swap a b h, orderForAccess_strict a b h⟩

/-- Witness for C4: the pair (1, 2) in both presentation orders. -/
theorem orderForAccess_symmetric_witness :
    ((1 : Int) ≠ 2) ∧ orderForAccess 1 2 = orderForAccess 2 1 ∧
    (orderForAccess 1 2).1 < (orderForAccess 1 2).2 :=
  ⟨by decide, orderForAccess_symmetric 1 2 (by decide)⟩

/-- C6: `TransferTx` with `fromAccountID = toAccountID` — under any
fault model — is rejected before any row mutation: the outcome is the
rejection error and the ledger is returned exactly as it was. -/
theorem transferTx_same_account_rejected (fault : Option TxStep)
    (p : TransferTxParams) (db : DB)
    (h : p.fromAccountID = p.toAccountID) :
    TransferTx fault p db = (db, .error .sameAccount) := by
  unfold TransferTx execTx transferTxBody
  simp [h]

/-- Witness for C6: a self-transfer on account 1 is rejected and the
ledger is untouched. -/
theorem transferTx_same_account_rejected_witness :
    ((⟨1, 1, 10⟩ : TransferTxParams).fromAccountID
        = (⟨1, 1, 10⟩ : TransferTxParams).toAccountID) ∧
    TransferTx none ⟨1, 1, 10⟩ sampleDB = (sampleDB, .error .sameAccount) :=
  ⟨rfl, transferTx_same_account_rejected none ⟨1, 1, 10⟩ sampleDB rfl⟩

/-- C5: for the scenario of N transfers between the same two accounts in
both directions, (i) no two-party lock-wait cycle can form — any two of
the scopes acquire the pair in the one global order, so a cycle would
force the order's two components to coincide — and (ii) the final
balances equal the initial balances adjusted by the algebraic sum of all
transfer amounts, the same for any settlement order (any permutation of
the list). -/
theorem concurrent_transfers_net_balance (a b : Int) (db : DB)
    (accA accB : Account) (ts ts' : List Xfer)
    (hab : a ≠ b)
    (hA : db.accounts a = some accA) (hB : db.accounts b = some accB)
    (hperm : ts.Perm ts') :
    ¬ twoPartyWaitCycle (orderForAccess a b) (orderForAccess b a) ∧
    ¬ twoPartyWaitCycle (orderForAccess a b) (orderForAccess a b) ∧
    ((applyTransfers a b db ts).accounts a).map Account.balance
        = some (accA.balance + netSumA ts) ∧
    ((applyTransfers a b db ts).accounts b).map Account.balance
        = some (accB.balance - netSumA ts) ∧
    ((applyTransfers a b db ts').accounts a).map Account.balance
        = some (accA.balance + netSumA ts) ∧
    ((applyTransfers a b db ts').accounts b).map Account.balance
        = some (accB.balance - netSumA ts) := by
  have hstrict := orderForAccess_strict a b hab
  have hnocycle : ¬ twoPartyWaitCycle (orderForAccess a b) (orderForAccess a b) := by
    rintro ⟨h1, -⟩
    exact absurd h1 (ne_of_gt hstrict)
  obtain ⟨h1, h2⟩ := applyTransfers_balances a b hab ts db accA accB hA hB
  obtain ⟨h3, h4⟩ := applyTransfers_balances a b hab ts' db accA accB hA hB
  rw [← netSumA_perm ts ts' hperm] at h3 h4
  refine ⟨?_, hnocycle, h1, h2, h3, h4⟩
  rw [← orderForAccess_swap a b hab]
  exact hnocycle

/-- Witness for C5: two transfers of 10 (1→2) and 30 (2→1) settled in
either order leave balance 1 at 100 + 20 and balance 2 at 50 - 20. -/
theorem concurrent_transfers_net_balance_witness :
    ((1 : Int) ≠ 2) ∧
    ([⟨.ab, 10⟩, ⟨.ba, 30⟩] : List Xfer).Perm [⟨.ba, 30⟩, ⟨.ab, 10⟩] ∧
    ¬ twoPartyWaitCycle (orderForAccess 1 2) (orderForAccess 2 1) ∧
    ((applyTransfers 1 2 sampleDB [⟨.ab, 10⟩, ⟨.ba, 30⟩]).accounts 1).map
        Account.balance
      = some (aliceAccount.balance + netSumA [⟨.ab, 10⟩, ⟨.ba, 30⟩]) ∧
    ((applyTransfers 1 2 sampleDB [⟨.ba, 30⟩, ⟨.ab, 10⟩]).accounts 1).map
        Account.balance
      = some (aliceAccount.balance + netSumA [⟨.ab, 10⟩, ⟨.ba, 30⟩]) :=
  have h := concurrent_transfers_net_balance 1 2 sampleDB aliceAccount bobAccount
    [⟨.ab, 10⟩, ⟨.ba, 30⟩] [⟨.ba, 30⟩, ⟨.ab, 10⟩]
    (by decide) (by decide) (by decide) (by decide)
  ⟨by decide, by decide, h.1, h.2.2.1, h.2.2.2.2.1⟩

/-- C7: the currency check lives in the caller, not in the core — for a
request in which either stored account currency differs from the request
currency, the caller answers bad-request, never invokes `TransferTx`, and
leaves the ledger untouched. -/
theorem transfer_handler_currency_guard (db : DB) (req : TransferRequest)
    (accF accT : Account)
    (hF : db.accounts req.fromAccountID = some accF)
    (hT : db.accounts req.toAccountID = some accT)
    (hmis : accF.currency ≠ req.currency ∨ accT.currency ≠ req.currency) :
    (createTransferHandler db req).txInvoked = false ∧
    (createTransferHandler db req).status = .badRequest400 ∧
    (createTransferHandler db req).db = db := by
  unfold createTransferHandler validAccount
  rcases hmis with h | h
  · simp [hF, h]
  · by_cases h2 : accF.currency = req.currency
    · simp [hF, hT, h2, h]
    · simp [hF, h2]

/-- Euro-denominated account used by the currency-mismatch witness. -/
def carolAccount : Account := ⟨3, "carol", 75, "EUR"⟩

/-- Witness ledger holding a USD account (1) and a EUR account (3). -/
def mixedDB : DB :=
  ⟨fun i => if i = 1 then some aliceAccount else if i = 3 then some carolAccount else none,
   [], []⟩

/-- Witness for C7: a USD transfer request whose source account is
EUR-denominated is rejected with bad-request and `TransferTx` is never
invoked. -/
theorem transfer_handler_currency_guard_witness :
    mixedDB.accounts 3 = some carolAccount ∧
    carolAccount.currency ≠ "USD" ∧
    (createTransferHandler mixedDB ⟨3, 1, 10, "USD"⟩).txInvoked = false ∧
    (createTransferHandler mixedDB ⟨3, 1, 10, "USD"⟩).status = .badRequest400 ∧
    (createTransferHandler mixedDB ⟨3, 1, 10, "USD"⟩).db = mixedDB :=
  have h := transfer_handler_currency_guard mixedDB ⟨3, 1, 10, "USD"⟩
    carolAccount aliceAccount (by decide) (by decide) (Or.inl (by decide))
  ⟨by decide, by decide, h.1, h.2.1, h.2.2⟩

/-- A user row as returned by the store (`db.User`): the fields the two
embedded handlers read. -/
structure User where
  username : String
  hashedPassword : String
  fullName : String
  email : String
deriving DecidableEq, Repr

namespace Api

/-- The bound JSON body of `createUser` (`createUserRequest` in
`api/user.go`). -/
structure CreateUserRequest where
  username : String
  password : String
  fullname : String
  email : String
deriving DecidableEq, Repr

/-- `db.CreateUserParams` as filled in by `createUser`. -/
structure CreateUserParams where
  username : String
  hashedPassword : String
  fullName : String
  email : String
deriving DecidableEq, Repr

/-- The outcome of `server.store.CreateUser`, supplied by the store: a
created user, a `pq` unique-violation error, or any other error. -/
inductive CreateUserOutcome where
  | success (user : User)
  | uniqueViolation
  | otherError
deriving DecidableEq, Repr

/-- The body of one response written through `ctx.JSON`. -/
inductive ResponseBody where
  | errBody
  | userBody (username fullName email : String)
deriving DecidableEq, Repr

/-- One response written through `ctx.JSON`: HTTP status and body. -/
structure Response where
  status : Nat
  body : ResponseBody
deriving DecidableEq, Repr

/-- Modelled from the spec: `util.HashedPassword` lives in the excluded
password-hashing collaborator (not under the provided sources). Its
outcome is an input; per the Go (string, error) convention the pair on
failure carries the empty string alongside the error. -/
def HashedPassword (outcome : Except String String) : String × Option String :=
  match outcome with
  | .ok h => (h, none)
  | .error e => ("", some e)

/-- The `createUser` handler of `api/user.go`, embedded statement by
statement: binding failure writes 400 and returns; a hashing failure
writes 400 but does NOT return (the Go code lacks a `return` there);
`store.CreateUser` is then invoked with the (empty) hashed password, and
its outcome is answered with 403 (unique violation), 500 (other error) or
200 (created user). The embedding returns every response written, in
order, and every `CreateUser` invocation made. -/
def createUser (bindingFailed : Bool) (hashOutcome : Except String String)
    (store : CreateUserParams → CreateUserOutcome) (req : CreateUserRequest) :
    List Response × List CreateUserParams :=
  if bindingFailed then ([⟨400, .errBody⟩], [])
  else
    let hp := HashedPassword hashOutcome
    let pre : List Response :=
      match hp.2 with
      | some _ => [⟨400, .errBody⟩]
      | none => []
    let arg : CreateUserParams :=
      { username := req.username
        hashedPassword := hp.1
        fullName := req.fullname
        email := req.email }
    match store arg with
    | .uniqueViolation => (pre ++ [⟨403, .errBody⟩], [arg])
    | .otherError => (pre ++ [⟨500, .errBody⟩], [arg])
    | .success user =>
      (pre ++ [⟨200, .userBody user.username user.fullName user.email⟩], [arg])

end Api

namespace Gapi

/-- `sql.NullString`: a string plus its validity flag. -/
structure NullString where
  string : String
  valid : Bool
deriving DecidableEq, Repr

/-- `sql.NullTime`: a timestamp (abstracted to an integer) plus its
validity flag. -/
structure NullTime where
  time : Int
  valid : Bool
deriving DecidableEq, Repr

/-- `pb.UpdateUserRequest`: `Username` is a plain field; `FullName`,
`Email` and `Password` are optional (nil-able pointer) fields. -/
structure UpdateUserRequest where
  username : String
  fullName : Option String
  email : Option String
  password : Option String
deriving DecidableEq, Repr

/-- `db.UpdateUserParams` as filled in by `UpdateUser`. -/
structure UpdateUserParams where
  username : String
  fullName : NullString
  email : NullString
  hashedPassword : NullString
  passwordChangedAt : NullTime
deriving DecidableEq, Repr

/-- The token payload returned by `server.authorizeUser`. -/
structure Payload where
  username : String
deriving DecidableEq, Repr

/-- One `errdetails.BadRequest_FieldViolation`. -/
structure FieldViolation where
  field : String
  descr : String
deriving DecidableEq, Repr

/-- The outcome of `server.store.UpdateUser`, supplied by the store. -/
inductive UpdateUserOutcome where
  | success (user : User)
  | noRows
  | otherError
deriving DecidableEq, Repr

/-- The gRPC result of `UpdateUser`: either the response with the
converted user, or the status error returned on each early exit. -/
inductive UpdateUserResult where
  | ok (username fullName email : String)
  | unauthenticated
  | invalidArgument (violations : List FieldViolation)
  | permissionDenied
  | internalHashError
  | notFound
  | internalError
deriving DecidableEq, Repr

/-- `validateUpdateUserRequest` of `gapi/rpc_update_user.go`, embedded
with the four `val` validators (an excluded collaborator package) as
inputs: the username is always validated; password, email and full name
only when the optional field is non-nil; violations accumulate in that
order. -/
def validateUpdateUserRequest
    (valUserName valPassword valEmail valFullName : String → Option String)
    (req : UpdateUserRequest) : List FieldViolation :=
  let v1 : List FieldViolation :=
    match valUserName req.username with
    | some e => [⟨"username", e⟩]
    | none => []
  let v2 := v1 ++
    (match req.password with
     | some pw =>
       match valPassword pw with
       | some e => [⟨"password", e⟩]
       | none => []
     | none => [])
  let v3 := v2 ++
    (match req.email with
     | some em =>
       match valEmail em with
       | some e => [⟨"email", e⟩]
       | none => []
     | none => [])
  v3 ++
    (match req.fullName with
     | some fn =>
       match valFullName fn with
       | some e => [⟨"fullname", e⟩]
       | none => []
     | none => [])

/-- The tail of `UpdateUser` from the single `server.store.UpdateUser`
call on: the store outcome is answered with the converted user, a
not-found status (`sql.ErrNoRows`) or an internal status. -/
def runStore (store : UpdateUserParams → UpdateUserOutcome)
    (arg : UpdateUserParams) : UpdateUserResult × List UpdateUserParams :=
  match store arg with
  | .success user => (.ok user.username user.fullName user.email, [arg])
  | .noRows => (.notFound, [arg])
  | .otherError => (.internalError, [arg])

/-- The `UpdateUser` handler of `gapi/rpc_update_user.go`, embedded
statement by statement. The authorization outcome, the four `val`
validators, the hash function and the store are collaborator inputs; the
result is paired with the list of `store.UpdateUser` invocations made.
Control flow follows the source: authorization, then request validation,
then the `payload.Username != req.Username` ownership check, then the
`UpdateUserParams` construction (full name and email marked valid iff the
optional field is non-nil), then — only for a non-nil password — hashing
plus the hashed-password and password-changed-at fields, then the single
store call. -/
def UpdateUser (auth : Except String Payload)
    (valUserName valPassword valEmail valFullName : String → Option String)
    (hashFn : String → Except String String) (now : Int)
    (store : UpdateUserParams → UpdateUserOutcome)
    (req : UpdateUserRequest) : UpdateUserResult × List UpdateUserParams :=
  match auth with
  | .error _ => (.unauthenticated, [])
  | .ok payload =>
    let violations :=
      validateUpdateUserRequest valUserName valPassword valEmail valFullName req
    if violations ≠ [] then (.invalidArgument violations, [])
    else if payload.username ≠ req.username then (.permissionDenied, [])
    else
      let arg : UpdateUserParams :=
        { username := req.username
          fullName := ⟨req.fullName.getD "", req.fullName.isSome⟩
          email := ⟨req.email.getD "", req.email.isSome⟩
          hashedPassword := ⟨"", false⟩
          passwordChangedAt := ⟨0, false⟩ }
      match req.password with
      | none => runStore store arg
      | some pw =>
        match hashFn pw with
        | .error _ => (.internalHashError, [])
        | .ok hashedPassword =>
          runStore store
            { arg with
              hashedPassword := ⟨hashedPassword, true⟩
              passwordChangedAt := ⟨now, true⟩ }

end Gapi

/-- C8: when `util.HashedPassword` fails inside `createUser`, the handler
writes a 400 response but does not stop: `store.CreateUser` is still
invoked with an empty hashed password, and on its success a second, 200
response with the created user is written. -/
theorem createUser_hash_error_continues
    (store : Api.CreateUserParams → Api.CreateUserOutcome)
    (req : Api.CreateUserRequest) (e : String) (user : User)
    (hstore : store { username := req.username, hashedPassword := "",
                      fullName := req.fullname, email := req.email }
        = .success user) :
    Api.createUser false (.error e) store req =
      ([⟨400, .errBody⟩,
        ⟨200, .userBody user.username user.fullName user.email⟩],
       [{ username := req.username, hashedPassword := "",
          fullName := req.fullname, email := req.email }]) := by
  unfold Api.createUser Api.HashedPassword
  simp [hstore]

/-- Sample user returned by the witness store. -/
def sampleUser : User := ⟨"alice", "", "Alice A", "alice@mail.com"⟩

/-- Witness store for the `createUser` claims: every insert succeeds. -/
def cuStore : Api.CreateUserParams → Api.CreateUserOutcome :=
  fun _ => .success sampleUser

/-- Witness request for the `createUser` claims. -/
def cuReq : Api.CreateUserRequest := ⟨"alice", "password", "Alice A", "alice@mail.com"⟩

/-- Witness for C8: with a failing hash and a succeeding store, the
handler writes 400 and then 200, and the store is called once with an
empty hashed password. -/
theorem createUser_hash_error_continues_witness :
    cuStore { username := cuReq.username, hashedPassword := "",
              fullName := cuReq.fullname, email := cuReq.email }
        = .success sampleUser ∧
    Api.createUser false (.error "bcrypt failure") cuStore cuReq =
      ([⟨400, .errBody⟩,
        ⟨200, .userBody sampleUser.username sampleUser.fullName sampleUser.email⟩],
       [{ username := cuReq.username, hashedPassword := "",
          fullName := cuReq.fullname, email := cuReq.email }]) :=
  ⟨by decide,
   createUser_hash_error_continues cuStore cuReq "bcrypt failure" sampleUser (by decide)⟩

/-- C9: every `UpdateUserParams` value actually passed to
`store.UpdateUser` has its full-name and email parameters marked valid
exactly when the corresponding request field is non-nil, and its
hashed-password and password-changed-at parameters marked valid exactly
when the request's password field is non-nil — absent fields are left
unchanged by the partial update. -/
theorem updateUser_null_flags
    (auth : Except String Gapi.Payload)
    (valU valP valE valF : String → Option String)
    (hashFn : String → Except String String) (now : Int)
    (store : Gapi.UpdateUserParams → Gapi.UpdateUserOutcome)
    (req : Gapi.UpdateUserRequest) (arg : Gapi.UpdateUserParams)
    (h : arg ∈ (Gapi.UpdateUser auth valU valP valE valF hashFn now store req).2) :
    arg.fullName.valid = req.fullName.isSome ∧
    arg.email.valid = req.email.isSome ∧
    arg.hashedPassword.valid = req.password.isSome ∧
    arg.passwordChangedAt.valid = req.password.isSome := by
  unfold Gapi.UpdateUser at h
  cases auth with
  | error e => simp at h
  | ok payload =>
    simp only at h
    split at h
    · simp at h
    · split at h
      · simp at h
      · split at h
        case _ hpw =>
          unfold Gapi.runStore at h
          split at h <;> simp at h <;> subst h <;> simp [hpw]
        case _ pw hpw =>
          split at h
          · simp at h
          · unfold Gapi.runStore at h
            split at h <;> simp at h <;> subst h <;> simp [hpw]

/-- Witness request for the `UpdateUser` claims: all optional fields
supplied. -/
def uuReq : Gapi.UpdateUserRequest :=
  ⟨"alice", some "Alice A", some "alice@mail.com", some "password"⟩

/-- Witness validators: accept everything. -/
def uuValOk : String → Option String := fun _ => none

/-- Witness hash function: always succeeds. -/
def uuHash : String → Except String String := fun _ => .ok "hashed"

/-- Witness store for the `UpdateUser` claims: the update succeeds. -/
def uuStore : Gapi.UpdateUserParams → Gapi.UpdateUserOutcome :=
  fun _ => .success sampleUser

/-- The one `UpdateUserParams` value the witness run passes to the
store. -/
def uuArg : Gapi.UpdateUserParams :=
  { username := "alice"
    fullName := ⟨"Alice A", true⟩
    email := ⟨"alice@mail.com", true⟩
    hashedPassword := ⟨"hashed", true⟩
    passwordChangedAt := ⟨7, true⟩ }

/-- Witness for C9: in a run where every optional field is supplied and
the store is reached, the passed parameters are all marked valid. -/
theorem updateUser_null_flags_witness :
    uuArg ∈ (Gapi.UpdateUser (.ok ⟨"alice"⟩) uuValOk uuValOk uuValOk uuValOk
        uuHash 7 uuStore uuReq).2 ∧
    uuArg.fullName.valid = uuReq.fullName.isSome ∧
    uuArg.email.valid = uuReq.email.isSome ∧
    uuArg.hashedPassword.valid = uuReq.password.isSome ∧
    uuArg.passwordChangedAt.valid = uuReq.password.isSome :=
  ⟨by decide,
   updateUser_null_flags (.ok ⟨"alice"⟩) uuValOk uuValOk uuValOk uuValOk
     uuHash 7 uuStore uuReq uuArg (by decide)⟩

/-- Username validator that rejects its input, standing for a `val`
package rejection (e.g. a malformed username). -/
def uuValFail : String → Option String := fun _ => some "invalid username"

/-- Store stub for the counterexample run (never reached). -/
def uuStoreIdle : Gapi.UpdateUserParams → Gapi.UpdateUserOutcome :=
  fun _ => .otherError

/-- Request whose username differs from the authenticated token's. -/
def uuReqBob : Gapi.UpdateUserRequest := ⟨"bob", none, none, none⟩

/-- Counterexample to C10 as stated: an authenticated request whose
username both fails field validation and differs from the token's
username is answered with the invalid-argument error, not with
permission-denied — validation runs before the ownership check. -/
theorem updateUser_permission_denied_counterexample :
    (Gapi.Payload.mk "alice").username ≠ uuReqBob.username ∧
    (Gapi.UpdateUser (.ok ⟨"alice"⟩) uuValFail uuValOk uuValOk uuValOk
        uuHash 0 uuStoreIdle uuReqBob).1
      = .invalidArgument [⟨"username", "invalid username"⟩] ∧
    (Gapi.UpdateUser (.ok ⟨"alice"⟩) uuValFail uuValOk uuValOk uuValOk
        uuHash 0 uuStoreIdle uuReqBob).1
      ≠ .permissionDenied := by
  decide

/-- C10 (amended): for every authenticated `UpdateUser` request,
`store.UpdateUser` is invoked only when the token's username equals the
request's username — when they differ no update is attempted, and,
provided the request passes field validation, the returned error is
permission-denied (a validation failure is reported as invalid-argument
before the ownership check). -/
theorem updateUser_ownership_guard
    (payload : Gapi.Payload)
    (valU valP valE valF : String → Option String)
    (hashFn : String → Except String String) (now : Int)
    (store : Gapi.UpdateUserParams → Gapi.UpdateUserOutcome)
    (req : Gapi.UpdateUserRequest)
    (hdiff : payload.username ≠ req.username) :
    (Gapi.UpdateUser (.ok payload) valU valP valE valF hashFn now store req).2
        = [] ∧
    (Gapi.validateUpdateUserRequest valU valP valE valF req = [] →
      (Gapi.UpdateUser (.ok payload) valU valP valE valF hashFn now store req).1
        = .permissionDenied) := by
  unfold Gapi.UpdateUser
  by_cases hv : Gapi.validateUpdateUserRequest valU valP valE valF req = []
  · simp [hv, hdiff]
  · simp [hv, hdiff]

/-- Witness for the amended C10: a clean request for user "bob" under a
token for "alice" makes no store call and is answered with
permission-denied. -/
theorem updateUser_ownership_guard_witness :
    (Gapi.Payload.mk "alice").username ≠ uuReqBob.username ∧
    (Gapi.UpdateUser (.ok ⟨"alice"⟩) uuValOk uuValOk uuValOk uuValOk
        uuHash 0 uuStoreIdle uuReqBob).2 = [] ∧
    (Gapi.validateUpdateUserRequest uuValOk uuValOk uuValOk uuValOk uuReqBob = [] →
      (Gapi.UpdateUser (.ok ⟨"alice"⟩) uuValOk uuValOk uuValOk uuValOk
          uuHash 0 uuStoreIdle uuReqBob).1
        = .permissionDenied) :=
  ⟨by decide,
   updateUser_ownership_guard ⟨"alice"⟩ uuValOk uuValOk uuValOk uuValOk
     uuHash 0 uuStoreIdle uuReqBob (by decide)⟩

end SimpleBank

